import Mathlib

/-!
Verification of the Gatekeeper + Proxy routing core of the
log8415e-final-assignment repository.

The development shallow-embeds the pure/algorithmic parts of
`src/application/strategies.py`, `src/application/gatekeeper.py` and
`src/application/proxy.py`:

* query text is modelled as `List Char` (Python `str`);
* Python `str.strip`, `str.upper`, `str.rstrip(';')` and substring tests
  are modelled character by character for ASCII input;
* the blocklist regexes of the gatekeeper (all of the fixed shape
  word-boundary, keyword, whitespace, alternatives, word-boundary) are
  implemented as a direct matcher over the uppercased character list;
* wall-clock times and latencies (Python floats, only ever subtracted
  and compared by the code) are modelled as integers in arbitrary units;
  a failed latency probe is the distinguished value `Latency.inf`
  (Python `float('inf')`);
* randomness (`random.choice`) is modelled by an externally supplied
  seed indexing into the list;
* the database driver and HTTP transport are abstract parameters
  (`DbDriver`, `ProxySvc`), matching the spec, which treats them as
  consumed external capabilities.
-/

/-! ## Python string primitives (ASCII model) -/

/-- Query text, Python `str` as a character list. -/
abbrev Qc := List Char

/-- Characters stripped by Python `str.strip()` (ASCII whitespace). -/
def pyIsSpace (c : Char) : Bool :=
  c = ' ' || c = '\t' || c = '\n' || c = '\x0d' || c = '\x0b' || c = '\x0c'

/-- Python `s.strip()`. -/
def pyStrip (s : Qc) : Qc :=
  ((s.dropWhile pyIsSpace).reverse.dropWhile pyIsSpace).reverse

/-- Python `s.upper()` (ASCII). -/
def pyUpper (s : Qc) : Qc := s.map Char.toUpper

/-- Python `s.rstrip(';')`: remove every trailing semicolon. -/
def pyRstripSemi (s : Qc) : Qc :=
  (s.reverse.dropWhile (fun c => c = ';')).reverse

/-- `startsWithL s p`: Python `s.startswith(p)`. -/
def startsWithL : Qc → Qc → Bool
  | _, [] => true
  | [], _ :: _ => false
  | c :: cs, p :: ps => c = p && startsWithL cs ps

/-- `containsSub s p`: Python `p in s` (substring containment). -/
def containsSub : Qc → Qc → Bool
  | [], p => startsWithL [] p
  | s@(_ :: rest), p => startsWithL s p || containsSub rest p

/-- Convenience: the characters of a string literal. -/
def qchars (s : String) : Qc := s.data

/-- Python truthiness of an `Optional[str]`: `None` and `""` are falsy. -/
def optStrTruthy : Option String → Bool
  | none => false
  | some s => s ≠ ""

/-! ## `strategies.classify_query` -/

/-- `classify_query` from `src/application/strategies.py` (lines 196-219):
uppercase the stripped query; a query starting with `SELECT` is `"read"`
unless it contains `FOR UPDATE` or `FOR SHARE`; everything else is
`"write"`. -/
def classify_query (q : Qc) : String :=
  let query_upper := pyUpper (pyStrip q)
  if startsWithL query_upper (qchars "SELECT") then
    if containsSub query_upper (qchars "FOR UPDATE")
        || containsSub query_upper (qchars "FOR SHARE") then "write"
    else "read"
  else "write"

example : classify_query (qchars "SELECT 1") = "read" := by decide
example : classify_query (qchars "SELECT * FROM t FOR UPDATE") = "write" := by decide
example : classify_query (qchars "INSERT INTO t VALUES (1)") = "write" := by decide
example : classify_query (qchars "") = "write" := by decide

/-! ## `gatekeeper` blocklist regexes and `validate_query` -/

/-- Python regex `\w` (ASCII part): letters, digits, underscore. -/
def isWordChar (c : Char) : Bool := c.isAlpha || c.isDigit || c = '_'

/-- If `p` begins `s`, return the remainder of `s`; otherwise `none`. -/
def dropLit : Qc → Qc → Option Qc
  | s, [] => some s
  | [], _ :: _ => none
  | c :: cs, p :: ps => if c = p then dropLit cs ps else none

/-- Try each alternative of a regex group `(A|B|...)` in order; on the first
literal match return the rest of the text.  The alternatives used by the
gatekeeper are never prefixes of one another, so first-match agrees with
the backtracking regex engine. -/
def firstAltRest : List Qc → Qc → Option Qc
  | [], _ => none
  | a :: rest, s =>
    match dropLit s a with
    | some r => some r
    | none => firstAltRest rest s

/-- A `\b` word boundary sits between the just-matched word character and
`s`: holds at end of text or before a non-word character. -/
def boundaryOk (s : Qc) : Bool :=
  match s with
  | [] => true
  | c :: _ => !isWordChar c

/-- Tail shapes of the gatekeeper's nine blocklist regexes, after the
leading `\b` keyword. -/
inductive PatTail
  /-- bare keyword: `\bKW\b` (GRANT, REVOKE, SHUTDOWN) -/
  | noTail
  /-- `\s+(A|B|...)\b` (DROP/ALTER/CREATE/TRUNCATE/INTO families) -/
  | wordAlts (alts : List Qc)
  /-- `\s*\(` (LOAD_FILE) -/
  | parenCall

/-- One blocklist pattern: uppercase keyword, tail shape, and the regex
source text used in the rejection message. -/
structure BlockPat where
  kw : Qc
  tail : PatTail
  patStr : String

/-- Match a pattern tail at `s` (the text right after the keyword).
`\s+` and `\s*` are greedy; the alternatives start with non-space word
characters, so maximal munch is exact. -/
def matchTail : PatTail → Qc → Bool
  | .noTail, s => boundaryOk s
  | .wordAlts alts, s =>
    match s with
    | [] => false
    | c :: _ =>
      if pyIsSpace c then
        match firstAltRest alts (s.dropWhile pyIsSpace) with
        | some rest => boundaryOk rest
        | none => false
      else false
  | .parenCall, s =>
    match s.dropWhile pyIsSpace with
    | '(' :: _ => true
    | _ => false

/-- Match a pattern at the head of `s` (the `\b` before the keyword has
already been checked by the caller). -/
def matchAt (p : BlockPat) (s : Qc) : Bool :=
  match dropLit s p.kw with
  | some rest => matchTail p.tail rest
  | none => false

/-- `re.search` over the uppercased text: try the pattern at every
position whose preceding character admits a `\b` boundary. -/
def searchAux (p : BlockPat) (prev : Option Char) : Qc → Bool
  | [] => false
  | s@(c :: rest) =>
    (boundaryBefore prev && matchAt p s) || searchAux p (some c) rest
where
  boundaryBefore : Option Char → Bool
    | none => true
    | some c => !isWordChar c

/-- `pattern.search(query)` for one blocklist pattern (case-insensitive:
applied to the uppercased query). -/
def searchPat (p : BlockPat) (s : Qc) : Bool := searchAux p none s

/-- `BLOCKED_PATTERNS` from `src/application/gatekeeper.py` lines 68-78,
in source order. -/
def BLOCKED : List BlockPat :=
  [ ⟨qchars "DROP",
      .wordAlts [qchars "TABLE", qchars "DATABASE", qchars "INDEX",
                 qchars "VIEW", qchars "TRIGGER", qchars "PROCEDURE",
                 qchars "FUNCTION"],
      "\\bDROP\\s+(TABLE|DATABASE|INDEX|VIEW|TRIGGER|PROCEDURE|FUNCTION)\\b"⟩,
    ⟨qchars "ALTER", .wordAlts [qchars "TABLE", qchars "DATABASE"],
      "\\bALTER\\s+(TABLE|DATABASE)\\b"⟩,
    ⟨qchars "CREATE",
      .wordAlts [qchars "TABLE", qchars "DATABASE", qchars "INDEX",
                 qchars "VIEW", qchars "TRIGGER", qchars "PROCEDURE",
                 qchars "FUNCTION"],
      "\\bCREATE\\s+(TABLE|DATABASE|INDEX|VIEW|TRIGGER|PROCEDURE|FUNCTION)\\b"⟩,
    ⟨qchars "TRUNCATE", .wordAlts [qchars "TABLE"],
      "\\bTRUNCATE\\s+TABLE\\b"⟩,
    ⟨qchars "GRANT", .noTail, "\\bGRANT\\b"⟩,
    ⟨qchars "REVOKE", .noTail, "\\bREVOKE\\b"⟩,
    ⟨qchars "LOAD_FILE", .parenCall, "\\bLOAD_FILE\\s*\\("⟩,
    ⟨qchars "INTO", .wordAlts [qchars "OUTFILE", qchars "DUMPFILE"],
      "\\bINTO\\s+(OUTFILE|DUMPFILE)\\b"⟩,
    ⟨qchars "SHUTDOWN", .noTail, "\\bSHUTDOWN\\b"⟩ ]

/-- First blocklist pattern matching the uppercased query, if any
(the gatekeeper iterates `BLOCKED_REGEX` in order). -/
def findBlocked (qUpper : Qc) : Option String :=
  match BLOCKED.find? (fun p => searchPat p qUpper) with
  | some p => some p.patStr
  | none => none

def MAX_QUERY_LENGTH : Nat := 10000

/-- `validate_query` from `src/application/gatekeeper.py` lines 83-104:
ordered checks for length, emptiness, multiple statements and the
blocklist; returns `(is_valid, error_message)`. -/
def validate_query (q : Qc) : Bool × String :=
  if q.length > MAX_QUERY_LENGTH then
    (false, "Query too long (max 10000 characters)")
  else if pyStrip q = [] then
    (false, "Empty query")
  else if (pyRstripSemi (pyStrip q)).contains ';' then
    (false, "Multiple statements not allowed")
  else
    match findBlocked (pyUpper q) with
    | some pat => (false, "Blocked operation detected: " ++ pat)
    | none => (true, "")

example : validate_query (qchars "SELECT 1;") = (true, "") := by decide
example : validate_query (qchars "SELECT 1; SELECT 2")
    = (false, "Multiple statements not allowed") := by decide
example : validate_query (qchars "SELECT 1;;") = (true, "") := by decide
example : validate_query (qchars "DROP TABLE foo")
    = (false, "Blocked operation detected: \\bDROP\\s+(TABLE|DATABASE|INDEX|VIEW|TRIGGER|PROCEDURE|FUNCTION)\\b") := by
  decide

/-! ## `strategies` - routing strategies -/

/-- Host addresses (plain strings; only compared for equality). -/
abbrev Host := String

/-- A measured TCP latency: a finite value in milliseconds, or
`float('inf')` when the probe failed (`measure_tcp_latency`). -/
inductive Latency
  | fin (v : Int)
  | inf
deriving DecidableEq

/-- Python `<` on latencies (`inf < inf` is false). -/
def latencyLt : Latency → Latency → Bool
  | .fin a, .fin b => a < b
  | .fin _, .inf => true
  | .inf, _ => false

/-- The external world a strategy call observes: the current wall-clock
time, the latency probe results, and the randomness source
(`random.choice(l)` is modelled as `l[seed % len(l)]`). -/
structure Env where
  now : Int
  lat : Host → Latency
  seed : Nat

/-- `random.choice` over a non-empty list, driven by the seed; the
default is unreachable when the list is non-empty. -/
def randomChoice (l : List Host) (seed : Nat) (dflt : Host) : Host :=
  (l.get? (seed % l.length)).getD dflt

/-- The `customized` strategy's cache: `_cached_best` and `_cache_time`. -/
structure CustCache where
  cached_best : Option Host
  cache_time : Int
deriving DecidableEq

/-- The three strategy classes of `src/application/strategies.py`
(`DirectHitStrategy`, `RandomStrategy`, `CustomizedPingStrategy`),
each carrying the topology it was constructed with. -/
inductive StrategyInst
  | direct_hit (manager : Host) (workers : List Host)
  | random (manager : Host) (workers : List Host)
  | customized (manager : Host) (workers : List Host)
      (cache_ttl : Int) (cache : CustCache)
deriving DecidableEq

/-- The `manager_host` attribute of a strategy instance. -/
def StrategyInst.manager : StrategyInst → Host
  | .direct_hit m _ => m
  | .random m _ => m
  | .customized m _ _ _ => m

/-- The `worker_hosts` attribute of a strategy instance. -/
def StrategyInst.workers : StrategyInst → List Host
  | .direct_hit _ w => w
  | .random _ w => w
  | .customized _ w _ _ => w

/-- `get_write_target` (strategies.py lines 71-73): every strategy
returns the manager. -/
def getWriteTarget (s : StrategyInst) : Host := s.manager

/-- Python `min(latencies, key=latencies.get)` over the workers, keeping
the first minimum (Python `min` replaces the candidate only on strict
`<`).  Duplicate keys collapse in the Python dict, but a duplicate is
never strictly below itself, so folding over the raw list is exact. -/
def argminGo (lat : Host → Latency) (best : Host) : List Host → Host
  | [] => best
  | h :: t => if latencyLt (lat h) (lat best) then argminGo lat h t
              else argminGo lat best t

/-- `min(latencies, key=latencies.get, default=None)`. -/
def argminLat (lat : Host → Latency) : List Host → Option Host
  | [] => none
  | h :: t => some (argminGo lat h t)

/-- `get_read_target` of each strategy (strategies.py lines 89-91,
103-107, 132-157), returning the chosen host and the (possibly updated)
strategy instance:
* `direct_hit`: always the manager;
* `random`: the manager when there are no workers, else a random worker;
* `customized`: the manager when there are no workers; else the cached
  host while `_cached_best` is truthy and `now - _cache_time < ttl`;
  else probe, take the first minimum-latency worker, fall back to a
  random worker when the minimum is infinite, and cache the decision
  with the current time. -/
def getReadTarget (s : StrategyInst) (env : Env) : Host × StrategyInst :=
  match s with
  | .direct_hit m _ => (m, s)
  | .random m w =>
    if w.isEmpty then (m, s)
    else (randomChoice w env.seed m, s)
  | .customized m w ttl c =>
    if w.isEmpty then (m, s)
    else if optStrTruthy c.cached_best
        && decide (env.now - c.cache_time < ttl) then
      (c.cached_best.getD m, s)
    else
      let best? := argminLat env.lat w
      let best :=
        match best? with
        | none => randomChoice w env.seed m
        | some b => if env.lat b = .inf then randomChoice w env.seed m else b
      (best, .customized m w ttl ⟨some best, env.now⟩)

/-- `STRATEGIES` registry keys (strategies.py lines 164-168). -/
def STRATEGY_NAMES : List String := ["direct_hit", "random", "customized"]

/-- `get_strategy` factory (strategies.py lines 171-189): construct the
named strategy over the topology, or raise `ValueError` on an unknown
name (the Python message also lists the available names). -/
def get_strategy (name : String) (manager : Host) (workers : List Host) :
    Except String StrategyInst :=
  if name = "direct_hit" then .ok (.direct_hit manager workers)
  else if name = "random" then .ok (.random manager workers)
  else if name = "customized" then
    .ok (.customized manager workers 5 ⟨none, 0⟩)
  else .error ("Unknown strategy: " ++ name)

example :
    getReadTarget (.customized "P" ["R1", "R2"] 5 ⟨none, 0⟩)
      ⟨10, fun _ => .inf, 3⟩
    = ("R2", .customized "P" ["R1", "R2"] 5 ⟨some "R2", 10⟩) := by decide
example :
    getReadTarget (.customized "P" ["R1", "R2"] 5 ⟨some "R1", 8⟩)
      ⟨10, fun _ => .fin 1, 0⟩
    = ("R1", .customized "P" ["R1", "R2"] 5 ⟨some "R1", 8⟩) := by decide

/-! ## `proxy` - strategy registry, target resolution, query execution -/

/-- The topology configuration of the proxy process
(`MANAGER_HOST`, `WORKER_HOSTS`). -/
structure ProxyConfig where
  manager : Host
  workers : List Host

/-- The proxy's global strategy registry: `current_strategy` (lazily
initialised, hence optional) and `current_strategy_name`
(proxy.py lines 120-122). -/
structure ProxyState where
  current_strategy : Option StrategyInst
  current_strategy_name : String
deriving DecidableEq

/-- The registry at process start: no instance yet, name `direct_hit`. -/
def initialProxyState : ProxyState := ⟨none, "direct_hit"⟩

/-- `init_strategy` (proxy.py lines 125-134): build the named strategy
over the configured topology and replace both registry fields; on
`ValueError` from the factory nothing is assigned, so the registry is
unchanged. -/
def init_strategy (cfg : ProxyConfig) (st : ProxyState) (name : String) :
    ProxyState × Except String Unit :=
  match get_strategy name cfg.manager cfg.workers with
  | .ok inst => (⟨some inst, name⟩, .ok ())
  | .error e => (st, .error e)

/-- Reply of the proxy's `POST /strategy` endpoint. -/
inductive SetStrategyReply
  /-- `{"success": true, "strategy": name}` -/
  | ok (strategy : String)
  /-- `HTTPException(status_code=400, detail=...)` -/
  | badRequest (detail : String)
deriving DecidableEq

/-- `set_strategy` endpoint (proxy.py lines 191-198): try
`init_strategy`; a `ValueError` becomes HTTP 400. -/
def set_strategy (cfg : ProxyConfig) (st : ProxyState) (name : String) :
    ProxyState × SetStrategyReply :=
  match init_strategy cfg st name with
  | (st2, .ok _) => (st2, .ok st2.current_strategy_name)
  | (st2, .error e) => (st2, .badRequest e)

/-- `get_target_host` (proxy.py lines 137-148): lazily initialise the
default `direct_hit` strategy when none is active; `"write"` goes to the
strategy's write target, anything else to its read target. -/
def get_target_host (cfg : ProxyConfig) (st : ProxyState)
    (query_type : String) (env : Env) : Host × ProxyState :=
  let st1 :=
    match st.current_strategy with
    | some _ => st
    | none => (init_strategy cfg st "direct_hit").1
  let inst := st1.current_strategy.getD (.direct_hit cfg.manager cfg.workers)
  if query_type = "write" then (getWriteTarget inst, st1)
  else
    let r := getReadTarget inst env
    (r.1, { st1 with current_strategy := some r.2 })

/-- A database result row (`DictCursor`): column name to value. -/
abbrev Row := List (String × String)

/-- The abstract database driver (pymysql): running a statement on a
host either raises a `pymysql.Error` (the `String`) or yields the
fetchable rows and the `rowcount`. -/
structure DbDriver where
  run : Host → Qc → Option (List String) → Except String (List Row × Int)

/-- `execute_query` (proxy.py lines 100-113): run the statement through
the driver; a query whose stripped uppercase text starts with `SELECT`
returns `{"data": rows}`, anything else commits and returns
`{"rows_affected": rowcount}`.  The result dict is modelled with two
optional fields, exactly one of which is set. -/
def execute_query (drv : DbDriver) (host : Host) (q : Qc)
    (args : Option (List String)) : Except String (Option (List Row) × Option Int) :=
  match drv.run host q args with
  | .error e => .error e
  | .ok (rows, count) =>
    if startsWithL (pyUpper (pyStrip q)) (qchars "SELECT") then
      .ok (some rows, none)
    else
      .ok (none, some count)

/-- The proxy's `QueryResponse` model (proxy.py lines 55-64):
`target_host`, `query_type`, `strategy` and `latency_ms` are required
fields, present on success and failure alike. -/
structure QueryResponseP where
  success : Bool
  data : Option (List Row)
  rows_affected : Option Int
  target_host : Host
  query_type : String
  strategy : String
  latency_ms : Int
  error : Option String
deriving DecidableEq

/-- `execute_sql_query` endpoint (proxy.py lines 201-242): classify,
resolve the target, execute; a `pymysql.Error` is caught and turned into
a `success=false` response that still carries target, classification,
strategy and latency.  `elapsed` abstracts the measured wall-clock
latency. -/
def execute_sql_query (cfg : ProxyConfig) (drv : DbDriver)
    (st : ProxyState) (q : Qc) (args : Option (List String)) (env : Env)
    (elapsed : Int) : QueryResponseP × ProxyState :=
  let query_type := classify_query q
  let tr := get_target_host cfg st query_type env
  let target := tr.1
  let st1 := tr.2
  match execute_query drv target q args with
  | .ok res =>
    ({ success := true, data := res.1, rows_affected := res.2,
       target_host := target, query_type := query_type,
       strategy := st1.current_strategy_name, latency_ms := elapsed,
       error := none }, st1)
  | .error e =>
    ({ success := false, data := none, rows_affected := none,
       target_host := target, query_type := query_type,
       strategy := st1.current_strategy_name, latency_ms := elapsed,
       error := some e }, st1)

/-! ## `gatekeeper` - authentication and the request pipeline -/

/-- `verify_api_key` (gatekeeper.py lines 107-109):
`api_key == API_KEY if api_key else False` - a missing or empty key is
falsy and fails closed; otherwise exact match against the configured
secret. -/
def verify_api_key (secret : String) (key : Option String) : Bool :=
  match key with
  | none => false
  | some k => if k = "" then false else k = secret

/-- The gatekeeper's `QueryRequest` model: query text, optional
positional arguments, optional strategy override. -/
structure GateRequest where
  query : Qc
  args : Option (List String)
  strategy : Option String

/-- The gatekeeper's `QueryResponse` model (gatekeeper.py lines 51-60):
every field except `success` is optional. -/
structure GateResponse where
  success : Bool
  data : Option (List Row)
  rows_affected : Option Int
  target_host : Option Host
  query_type : Option String
  strategy : Option String
  latency_ms : Option Int
  error : Option String
deriving DecidableEq

/-- The all-`none` response body, filled in per branch. -/
def emptyGateResponse : GateResponse :=
  ⟨false, none, none, none, none, none, none, none⟩

/-- What the gatekeeper's `execute_query` handler can return to the
client: a normal envelope, or an `HTTPException` rendered as an error
object (401 for auth, 502 for an unreachable proxy). -/
inductive GateResult
  | envelope (r : GateResponse)
  | httpError (status : Nat) (detail : String)
deriving DecidableEq

/-- The proxy as seen from the gatekeeper, over an abstract service
state `σ`: `changeStrategy` models `change_proxy_strategy` (returns
whether the proxy answered 200; transport errors are caught inside and
become `false`), `runQuery` models `forward_to_proxy("/query", ...)`
(`.error` is an `httpx.RequestError`, i.e. transport failure). -/
structure ProxySvc (σ : Type) where
  changeStrategy : σ → String → σ × Bool
  runQuery : σ → Qc → Option (List String) → σ × Except String QueryResponseP

/-- Outcome of one gatekeeper request: the HTTP result, the service
state afterwards, and how many times validation and the router's query
endpoint ran (the counters let "never reaches the Router" be stated). -/
structure GateOutcome (σ : Type) where
  result : GateResult
  svcState : σ
  validateCalls : Nat
  routerCalls : Nat

/-- `execute_query` handler of the gatekeeper (gatekeeper.py lines
164-207): authenticate (401 on failure, nothing else runs), validate
(failure is a `success=false` envelope, the proxy is never called),
best-effort strategy change when the request names a truthy strategy
(its result is discarded), then forward to the proxy (transport failure
is HTTP 502); a proxy reply is repackaged into the envelope with the
gateway-measured latency `elapsed`. -/
def gate_execute {σ : Type} (secret : String) (svc : ProxySvc σ) (ps : σ)
    (req : GateRequest) (key : Option String) (elapsed : Int) :
    GateOutcome σ :=
  if verify_api_key secret key then
    let v := validate_query req.query
    if v.1 then
      let ps1 :=
        if optStrTruthy req.strategy then
          (svc.changeStrategy ps (req.strategy.getD "")).1
        else ps
      match svc.runQuery ps1 req.query req.args with
      | (ps2, .ok r) =>
        ⟨.envelope { success := r.success, data := r.data,
                     rows_affected := r.rows_affected,
                     target_host := some r.target_host,
                     query_type := some r.query_type,
                     strategy := some r.strategy,
                     latency_ms := some elapsed, error := r.error },
         ps2, 1, 1⟩
      | (ps2, .error e) =>
        ⟨.httpError 502 ("Proxy unavailable: " ++ e), ps2, 1, 1⟩
    else
      ⟨.envelope { emptyGateResponse with
                   success := false,
                   error := some ("Query validation failed: " ++ v.2) },
       ps, 1, 0⟩
  else ⟨.httpError 401 "Invalid API key", ps, 0, 0⟩

/-- The real proxy wired in as the gatekeeper's service: strategy
changes go to `set_strategy`, queries to `execute_sql_query`.  The
environment and measured latency of the proxy-side call are fixed
parameters of the instantiation. -/
def proxySvc (cfg : ProxyConfig) (drv : DbDriver) (env : Env)
    (elapsedP : Int) : ProxySvc ProxyState where
  changeStrategy := fun st name =>
    let r := set_strategy cfg st name
    (r.1, match r.2 with | .ok _ => true | .badRequest _ => false)
  runQuery := fun st q args =>
    let r := execute_sql_query cfg drv st q args env elapsedP
    (r.2, .ok r.1)

/-! ## Helper lemmas -/

lemma randomChoice_mem (l : List Host) (seed : Nat) (d : Host)
    (h : l ≠ []) : randomChoice l seed d ∈ l := by
  unfold randomChoice
  have hlen : 0 < l.length := List.length_pos.mpr h
  have hlt : seed % l.length < l.length := Nat.mod_lt _ hlen
  rw [List.get?_eq_get hlt]
  exact List.get_mem l _ hlt

lemma argminGo_mem (lat : Host → Latency) (best : Host) (t : List Host) :
    argminGo lat best t = best ∨ argminGo lat best t ∈ t := by
  induction t generalizing best with
  | nil => left; rfl
  | cons h t ih =>
    unfold argminGo
    split
    · rcases ih h with h1 | h1
      · right; simp [h1]
      · right; simp [h1]
    · rcases ih best with h1 | h1
      · left; exact h1
      · right; simp [h1]

/-- The code's cache-validity test is false when the cache is empty or
the TTL has elapsed. -/
lemma cacheMiss_of (c : CustCache) (env : Env) (ttl : Int)
    (h : c.cached_best = none ∨ ttl ≤ env.now - c.cache_time) :
    (optStrTruthy c.cached_best
      && decide (env.now - c.cache_time < ttl)) = false := by
  rcases h with h | h
  · simp [h, optStrTruthy]
  · simp [decide_eq_false (not_lt.mpr h)]

/-- On a cache miss over a non-empty worker list, `customized` reduces
to the probe-and-cache branch. -/
lemma customized_probe_eq (m a : Host) (t : List Host) (ttl : Int)
    (c : CustCache) (env : Env)
    (hmi : (optStrTruthy c.cached_best
      && decide (env.now - c.cache_time < ttl)) = false) :
    getReadTarget (.customized m (a :: t) ttl c) env =
      (let b := argminGo env.lat a t
       let best := if env.lat b = .inf then randomChoice (a :: t) env.seed m
                   else b
       (best, .customized m (a :: t) ttl ⟨some best, env.now⟩)) := by
  simp only [getReadTarget, List.isEmpty_cons, Bool.false_eq_true, if_false,
    hmi, argminLat]

/-- A probing selection picks a worker and caches exactly its pick with
the current time. -/
lemma customized_probe_spec (m : Host) (w : List Host) (ttl : Int)
    (c : CustCache) (env : Env) (hw : w ≠ [])
    (hmi : (optStrTruthy c.cached_best
      && decide (env.now - c.cache_time < ttl)) = false) :
    (getReadTarget (.customized m w ttl c) env).1 ∈ w ∧
    (getReadTarget (.customized m w ttl c) env).2 =
      .customized m w ttl
        ⟨some (getReadTarget (.customized m w ttl c) env).1, env.now⟩ := by
  cases w with
  | nil => exact absurd rfl hw
  | cons a t =>
    rw [customized_probe_eq m a t ttl c env hmi]
    refine ⟨?_, rfl⟩
    simp only
    split
    · exact randomChoice_mem _ _ _ (by simp)
    · rcases argminGo_mem env.lat a t with h1 | h1
      · simp [h1]
      · simp [h1]

/-- A cache hit returns the cached host and leaves the instance
untouched, for any latency environment. -/
lemma customized_cache_hit (m : Host) (w : List Host) (ttl : Int)
    (c : CustCache) (env : Env) (h : Host) (hw : w ≠ [])
    (hc : c.cached_best = some h) (hne : h ≠ "")
    (ht : env.now - c.cache_time < ttl) :
    getReadTarget (.customized m w ttl c) env =
      (h, .customized m w ttl c) := by
  cases w with
  | nil => exact absurd rfl hw
  | cons a t => simp [getReadTarget, hc, optStrTruthy, hne, ht]

/-! ## Claim theorems -/

/-- C1: For every strategy variant (direct_hit, random, customized) over
every topology, including one with zero replicas, resolving the target
of a WRITE query returns the manager host, independent of the active
strategy: `get_write_target` of every instance is its manager, and the
proxy's `get_target_host` on `"write"` returns the manager of the active
instance (or of the configured topology under the lazily initialised
default) in every environment. -/
theorem write_resolution_always_manager :
    (∀ (m : Host) (w : List Host), getWriteTarget (.direct_hit m w) = m) ∧
    (∀ (m : Host) (w : List Host), getWriteTarget (.random m w) = m) ∧
    (∀ (m : Host) (w : List Host) (ttl : Int) (c : CustCache),
      getWriteTarget (.customized m w ttl c) = m) ∧
    (∀ (cfg : ProxyConfig) (st : ProxyState) (env : Env)
       (inst : StrategyInst), st.current_strategy = some inst →
      (get_target_host cfg st "write" env).1 = inst.manager) ∧
    (∀ (cfg : ProxyConfig) (st : ProxyState) (env : Env),
      st.current_strategy = none →
      (get_target_host cfg st "write" env).1 = cfg.manager) := by
  refine ⟨fun m w => rfl, fun m w => rfl, fun m w ttl c => rfl,
    fun cfg st env inst h => ?_, fun cfg st env h => ?_⟩
  · simp [get_target_host, h, getWriteTarget]
  · simp [get_target_host, h, init_strategy, get_strategy, getWriteTarget,
      StrategyInst.manager]

/-- Witness for C1 on a concrete topology and registry state. -/
theorem write_resolution_always_manager_witness :
    (get_target_host ⟨"P", ["R1", "R2"]⟩
      ⟨some (.random "P" ["R1", "R2"]), "random"⟩ "write"
      ⟨0, fun _ => .inf, 0⟩).1 = "P" :=
  write_resolution_always_manager.2.2.2.1 ⟨"P", ["R1", "R2"]⟩
    ⟨some (.random "P" ["R1", "R2"]), "random"⟩ ⟨0, fun _ => .inf, 0⟩
    (.random "P" ["R1", "R2"]) rfl

/-- C2: `classify_query` is total and deterministic: every query maps to
`"read"` or `"write"`; it maps to `"read"` exactly when the stripped,
uppercased query starts with `SELECT` and contains neither `FOR UPDATE`
nor `FOR SHARE`; and the sample queries classify as the claim states
(with a lowercase sample for case-insensitivity). -/
theorem classify_query_total_correct :
    (∀ q : Qc, classify_query q = "read" ∨ classify_query q = "write") ∧
    (∀ q : Qc, classify_query q = "read" ↔
      (startsWithL (pyUpper (pyStrip q)) (qchars "SELECT") = true ∧
       containsSub (pyUpper (pyStrip q)) (qchars "FOR UPDATE") = false ∧
       containsSub (pyUpper (pyStrip q)) (qchars "FOR SHARE") = false)) ∧
    classify_query (qchars "SELECT 1") = "read" ∧
    classify_query (qchars "select 1") = "read" ∧
    classify_query (qchars "SELECT * FROM t FOR UPDATE") = "write" ∧
    classify_query (qchars "INSERT INTO t VALUES (1)") = "write" ∧
    classify_query (qchars "") = "write" := by
  refine ⟨fun q => ?_, fun q => ?_, by decide, by decide, by decide,
    by decide, by decide⟩
  · dsimp only [classify_query]
    cases hs : startsWithL (pyUpper (pyStrip q)) (qchars "SELECT") <;>
      cases hu : containsSub (pyUpper (pyStrip q)) (qchars "FOR UPDATE") <;>
      cases hsh : containsSub (pyUpper (pyStrip q)) (qchars "FOR SHARE") <;>
      simp [hs, hu, hsh]
  · dsimp only [classify_query]
    cases hs : startsWithL (pyUpper (pyStrip q)) (qchars "SELECT") <;>
      cases hu : containsSub (pyUpper (pyStrip q)) (qchars "FOR UPDATE") <;>
      cases hsh : containsSub (pyUpper (pyStrip q)) (qchars "FOR SHARE") <;>
      simp [hs, hu, hsh]
  
/-- Witness for C2: the read/write characterization applied to a fresh
concrete query. -/
theorem classify_query_total_correct_witness :
    classify_query (qchars "SELECT id FROM users") = "read" :=
  (classify_query_total_correct.2.1 (qchars "SELECT id FROM users")).mpr
    (by decide)

/-- C5: For every strategy variant, when the replica set is empty the
read-target selection returns the manager and leaves the instance
unchanged; the model is a total function, so no error is possible. -/
theorem read_target_empty_replicas_manager (s : StrategyInst) (env : Env)
    (h : s.workers = []) : getReadTarget s env = (s.manager, s) := by
  cases s with
  | direct_hit m w => rfl
  | random m w =>
    simp only [StrategyInst.workers] at h
    subst h
    rfl
  | customized m w ttl c =>
    simp only [StrategyInst.workers] at h
    subst h
    rfl

/-- Witness for C5 on each variant over the zero-replica topology. -/
theorem read_target_empty_replicas_manager_witness :
    getReadTarget (.direct_hit "P" []) ⟨7, fun _ => .fin 1, 2⟩
      = ("P", .direct_hit "P" []) ∧
    getReadTarget (.random "P" []) ⟨7, fun _ => .fin 1, 2⟩
      = ("P", .random "P" []) ∧
    getReadTarget (.customized "P" [] 5 ⟨none, 0⟩) ⟨7, fun _ => .fin 1, 2⟩
      = ("P", .customized "P" [] 5 ⟨none, 0⟩) :=
  ⟨read_target_empty_replicas_manager (.direct_hit "P" []) _ rfl,
   read_target_empty_replicas_manager (.random "P" []) _ rfl,
   read_target_empty_replicas_manager (.customized "P" [] 5 ⟨none, 0⟩) _ rfl⟩

/-- The blocked-operation message can never collide with the
multi-statement message, whatever the pattern text. -/
lemma blocked_msg_ne (s : String) :
    ("Blocked operation detected: " ++ s)
      ≠ "Multiple statements not allowed" := by
  intro h
  have h2 := congrArg String.data h
  rw [String.data_append] at h2
  simp at h2

/-- C3 counterexample: the claim says a query ending in two or more
semicolons (e.g. `"SELECT 1;;"`) is rejected, but the code strips every
trailing semicolon (`rstrip(';')` with no count), so `"SELECT 1;;"`
passes validation. -/
theorem trailing_semicolons_accepted :
    validate_query (qchars "SELECT 1;;") = (true, "") := by decide

/-- C3 (amended): the multi-statement check strips ALL trailing
semicolons and then rejects with "Multiple statements not allowed" if
any semicolon remains: a query draws that rejection exactly when it
passes the length and non-emptiness checks and a semicolon survives
`rstrip(';')` of the stripped text.  Hence `"SELECT 1;"` is accepted,
`"SELECT 1; SELECT 2"` is rejected, and `"SELECT 1;;"` is accepted, not
rejected. -/
theorem multi_statement_check_correct :
    (∀ q : Qc,
      validate_query q = (false, "Multiple statements not allowed") ↔
        (q.length ≤ MAX_QUERY_LENGTH ∧ pyStrip q ≠ [] ∧
         (pyRstripSemi (pyStrip q)).contains ';' = true)) ∧
    validate_query (qchars "SELECT 1;") = (true, "") ∧
    validate_query (qchars "SELECT 1; SELECT 2")
      = (false, "Multiple statements not allowed") ∧
    validate_query (qchars "SELECT 1;;") = (true, "") := by
  refine ⟨fun q => ?_, by decide, by decide, by decide⟩
  unfold validate_query
  by_cases h1 : q.length > MAX_QUERY_LENGTH
  · rw [if_pos h1]
    refine iff_of_false ?_ ?_
    · intro h
      exact absurd (congrArg Prod.snd h) (by decide)
    · rintro ⟨hle, -, -⟩
      exact absurd h1 (not_lt.mpr hle)
  · have h1n : q.length ≤ MAX_QUERY_LENGTH := not_lt.mp h1
    by_cases h2 : pyStrip q = []
    · rw [if_neg h1, if_pos h2]
      refine iff_of_false ?_ ?_
      · intro h
        exact absurd (congrArg Prod.snd h) (by decide)
      · rintro ⟨-, hne, -⟩
        exact absurd h2 hne
    · by_cases h3 : (pyRstripSemi (pyStrip q)).contains ';' = true
      · rw [if_neg h1, if_neg h2, if_pos h3]
        exact iff_of_true rfl ⟨h1n, h2, h3⟩
      · rw [if_neg h1, if_neg h2, if_neg h3]
        cases hf : findBlocked (pyUpper q) with
        | none =>
          refine iff_of_false ?_ ?_
          · intro h
            exact absurd (congrArg Prod.fst h) (by decide)
          · rintro ⟨-, -, hc⟩
            exact h3 hc
        | some pat =>
          refine iff_of_false ?_ ?_
          · intro h
            exact blocked_msg_ne pat (congrArg Prod.snd h)
          · rintro ⟨-, -, hc⟩
            exact h3 hc

/-- Witness for C3's amended theorem: the characterization applied to a
fresh concrete query with an interior semicolon. -/
theorem multi_statement_check_correct_witness :
    validate_query (qchars "SELECT 1 ; SELECT 2;")
      = (false, "Multiple statements not allowed") :=
  (multi_statement_check_correct.1 (qchars "SELECT 1 ; SELECT 2;")).mpr
    (by decide)

/-- C6: For a non-empty replica set, when a probe round finds every
worker unreachable (all latencies infinite) the selection is exactly the
uniform-random fallback pick over the worker list: the returned host is
a member of the worker set, and is never the manager (when the manager
is not itself listed as a worker); the model is total, so no error is
possible. -/
theorem customized_all_unreachable_random_member
    (m : Host) (w : List Host) (ttl : Int) (c : CustCache) (env : Env)
    (hw : w ≠ [])
    (hmiss : c.cached_best = none ∨ ttl ≤ env.now - c.cache_time)
    (hinf : ∀ x ∈ w, env.lat x = .inf) :
    (getReadTarget (.customized m w ttl c) env).1
        = randomChoice w env.seed m ∧
    (getReadTarget (.customized m w ttl c) env).1 ∈ w ∧
    (m ∉ w → (getReadTarget (.customized m w ttl c) env).1 ≠ m) := by
  have hmi := cacheMiss_of c env ttl hmiss
  cases w with
  | nil => exact absurd rfl hw
  | cons a t =>
    have hb : argminGo env.lat a t ∈ a :: t := by
      rcases argminGo_mem env.lat a t with h | h
      · simp [h]
      · simp [h]
    have hbi : env.lat (argminGo env.lat a t) = .inf := hinf _ hb
    rw [customized_probe_eq m a t ttl c env hmi]
    dsimp only
    rw [if_pos hbi]
    refine ⟨rfl, randomChoice_mem _ _ _ (List.cons_ne_nil a t), ?_⟩
    intro hm heq
    exact hm (heq ▸ randomChoice_mem (a :: t) env.seed m (List.cons_ne_nil a t))

/-- Witness for C6 on a two-replica topology with every probe failing. -/
theorem customized_all_unreachable_random_member_witness :
    (getReadTarget (.customized "P" ["R1", "R2"] 5 ⟨none, 0⟩)
        ⟨10, fun _ => .inf, 3⟩).1 = randomChoice ["R1", "R2"] 3 "P" ∧
    (getReadTarget (.customized "P" ["R1", "R2"] 5 ⟨none, 0⟩)
        ⟨10, fun _ => .inf, 3⟩).1 ∈ ["R1", "R2"] ∧
    ("P" ∉ (["R1", "R2"] : List Host) →
      (getReadTarget (.customized "P" ["R1", "R2"] 5 ⟨none, 0⟩)
        ⟨10, fun _ => .inf, 3⟩).1 ≠ "P") :=
  customized_all_unreachable_random_member "P" ["R1", "R2"] 5 ⟨none, 0⟩
    ⟨10, fun _ => .inf, 3⟩ (by decide) (Or.inl rfl) (fun x _ => rfl)

/-- C7: the `customized` cache contract over any non-empty replica set:
a selection under a truthy cached host within the TTL returns exactly
that host with the instance unchanged (the latency environment is
arbitrary, so no probing can influence the result); a selection that
probes (empty cache or expired TTL) stores its own decision - measured
or random fallback - together with the current timestamp; consequently a
probing selection followed within the TTL window by a second selection
returns the same host even when latencies change arbitrarily between the
calls. -/
theorem customized_cache_ttl_behavior (m : Host) (w : List Host)
    (ttl : Int) :
    (∀ (c : CustCache) (env : Env) (h : Host),
      w ≠ [] → c.cached_best = some h → h ≠ "" →
      env.now - c.cache_time < ttl →
      getReadTarget (.customized m w ttl c) env
        = (h, .customized m w ttl c)) ∧
    (∀ (c : CustCache) (env : Env),
      w ≠ [] →
      (c.cached_best = none ∨ ttl ≤ env.now - c.cache_time) →
      (getReadTarget (.customized m w ttl c) env).2 =
        .customized m w ttl
          ⟨some (getReadTarget (.customized m w ttl c) env).1, env.now⟩) ∧
    (∀ (c : CustCache) (env1 env2 : Env),
      w ≠ [] → (∀ x ∈ w, x ≠ "") →
      (c.cached_best = none ∨ ttl ≤ env1.now - c.cache_time) →
      env2.now - env1.now < ttl →
      (getReadTarget ((getReadTarget (.customized m w ttl c) env1).2)
          env2).1
        = (getReadTarget (.customized m w ttl c) env1).1) := by
  refine ⟨fun c env h hw hc hne ht =>
      customized_cache_hit m w ttl c env h hw hc hne ht,
    fun c env hw hm =>
      (customized_probe_spec m w ttl c env hw (cacheMiss_of c env ttl hm)).2,
    fun c env1 env2 hw hne hm ht2 => ?_⟩
  obtain ⟨hmem, hst⟩ :=
    customized_probe_spec m w ttl c env1 hw (cacheMiss_of c env1 ttl hm)
  have hh := customized_cache_hit m w ttl
    ⟨some (getReadTarget (.customized m w ttl c) env1).1, env1.now⟩ env2
    (getReadTarget (.customized m w ttl c) env1).1 hw rfl
    (hne _ hmem) ht2
  rw [hst, hh]

/-- Witness for C7: a cache hit returning the cached host, and a probing
selection caching its pick with the probe time. -/
theorem customized_cache_ttl_behavior_witness :
    getReadTarget (.customized "P" ["R1", "R2"] 5 ⟨some "R1", 8⟩)
        ⟨10, fun _ => .fin 1, 0⟩
      = ("R1", .customized "P" ["R1", "R2"] 5 ⟨some "R1", 8⟩) ∧
    (getReadTarget (.customized "P" ["R1", "R2"] 5 ⟨none, 0⟩)
        ⟨10, fun _ => .inf, 3⟩).2
      = .customized "P" ["R1", "R2"] 5
          ⟨some (getReadTarget (.customized "P" ["R1", "R2"] 5 ⟨none, 0⟩)
              ⟨10, fun _ => .inf, 3⟩).1, 10⟩ :=
  ⟨(customized_cache_ttl_behavior "P" ["R1", "R2"] 5).1 ⟨some "R1", 8⟩
      ⟨10, fun _ => .fin 1, 0⟩ "R1" (by decide) rfl (by decide) (by decide),
   (customized_cache_ttl_behavior "P" ["R1", "R2"] 5).2.1 ⟨none, 0⟩
      ⟨10, fun _ => .inf, 3⟩ (by decide) (Or.inl rfl)⟩

/-- C4: requests rejected before routing never reach the Router.  For
any router double `svc` over any state type: a failed API-key check
yields HTTP 401 with zero validation and zero router calls; a passing
key with a failing validation yields a `success=false` envelope whose
error carries the rejection reason, with zero router calls; in
particular `"DROP TABLE foo"` yields the envelope naming the blocked
pattern and the router double records zero invocations. -/
theorem gate_rejects_never_reach_router {σ : Type} (secret : String)
    (svc : ProxySvc σ) (ps : σ) (req : GateRequest) (key : Option String)
    (elapsed : Int) :
    (verify_api_key secret key = false →
      gate_execute secret svc ps req key elapsed
        = ⟨.httpError 401 "Invalid API key", ps, 0, 0⟩) ∧
    (verify_api_key secret key = true →
      (validate_query req.query).1 = false →
      gate_execute secret svc ps req key elapsed
        = ⟨.envelope { emptyGateResponse with
            success := false,
            error := some ("Query validation failed: "
              ++ (validate_query req.query).2) }, ps, 1, 0⟩) ∧
    (verify_api_key secret key = true →
      req.query = qchars "DROP TABLE foo" →
      gate_execute secret svc ps req key elapsed
        = ⟨.envelope { emptyGateResponse with
            success := false,
            error := some ("Query validation failed: "
              ++ "Blocked operation detected: \\bDROP\\s+(TABLE|DATABASE|INDEX|VIEW|TRIGGER|PROCEDURE|FUNCTION)\\b") },
           ps, 1, 0⟩) := by
  refine ⟨fun hv => ?_, fun hv hval => ?_, fun hv hq => ?_⟩
  · simp [gate_execute, hv]
  · simp [gate_execute, hv, hval]
  · have hval : validate_query (qchars "DROP TABLE foo")
        = (false, "Blocked operation detected: \\bDROP\\s+(TABLE|DATABASE|INDEX|VIEW|TRIGGER|PROCEDURE|FUNCTION)\\b") := by
      decide
    simp [gate_execute, hv, hq, hval]

/-- A trivial router double recording nothing: every query forwarded to
it would fail as unreachable. -/
def stubSvc : ProxySvc Unit :=
  ⟨fun s _ => (s, true), fun s _ _ => (s, .error "unreachable")⟩

/-- Witness for C4: a wrong key is an HTTP 401 with zero router calls,
and `"DROP TABLE foo"` with a good key is a validation envelope with
zero router calls. -/
theorem gate_rejects_never_reach_router_witness :
    gate_execute "secret-key" stubSvc () ⟨qchars "SELECT 1", none, none⟩
        (some "wrong") 0
      = ⟨.httpError 401 "Invalid API key", (), 0, 0⟩ ∧
    gate_execute "secret-key" stubSvc ()
        ⟨qchars "DROP TABLE foo", none, none⟩ (some "secret-key") 0
      = ⟨.envelope { emptyGateResponse with
          success := false,
          error := some ("Query validation failed: "
            ++ "Blocked operation detected: \\bDROP\\s+(TABLE|DATABASE|INDEX|VIEW|TRIGGER|PROCEDURE|FUNCTION)\\b") },
         (), 1, 0⟩ :=
  ⟨(gate_rejects_never_reach_router "secret-key" stubSvc ()
      ⟨qchars "SELECT 1", none, none⟩ (some "wrong") 0).1 (by decide),
   (gate_rejects_never_reach_router "secret-key" stubSvc ()
      ⟨qchars "DROP TABLE foo", none, none⟩ (some "secret-key") 0).2.2
     (by decide) rfl⟩

/-- C8: a database-level failure (`pymysql.Error`, the only exception
the handler catches) is returned as a structured failure: `success` is
false, the error text is carried, and the target host, classification,
strategy name and elapsed latency are still populated; the model returns
a `QueryResponseP` value on every driver outcome, so no exception
propagates. -/
theorem db_error_structured_failure (cfg : ProxyConfig) (drv : DbDriver)
    (st : ProxyState) (q : Qc) (args : Option (List String)) (env : Env)
    (elapsed : Int) (e : String)
    (h : drv.run (get_target_host cfg st (classify_query q) env).1 q args
          = .error e) :
    (execute_sql_query cfg drv st q args env elapsed).1 =
      { success := false, data := none, rows_affected := none,
        target_host := (get_target_host cfg st (classify_query q) env).1,
        query_type := classify_query q,
        strategy := (get_target_host cfg st (classify_query q) env).2.current_strategy_name,
        latency_ms := elapsed, error := some e } := by
  unfold execute_sql_query execute_query
  dsimp only
  rw [h]

/-- A driver failing every statement with a fixed error text. -/
def failDriver : DbDriver := ⟨fun _ _ _ => .error "Table does not exist"⟩

/-- Witness for C8 on a concrete failing execution. -/
theorem db_error_structured_failure_witness :
    (execute_sql_query ⟨"P", ["R1", "R2"]⟩ failDriver initialProxyState
        (qchars "SELECT 1") none ⟨0, fun _ => .fin 1, 0⟩ 4).1 =
      { success := false, data := none, rows_affected := none,
        target_host := "P", query_type := "read", strategy := "direct_hit",
        latency_ms := 4, error := some "Table does not exist" } := by
  rw [db_error_structured_failure ⟨"P", ["R1", "R2"]⟩ failDriver
    initialProxyState (qchars "SELECT 1") none ⟨0, fun _ => .fin 1, 0⟩ 4
    "Table does not exist" rfl]
  decide

/-- C9: a strategy name outside the registry {direct_hit, random,
customized} makes the Router's strategy change fail with HTTP 400 and a
`ValueError` message, leaving the registry's (name, instance) pair
untouched; and the Gateway's best-effort change swallows the failure, so
a request naming such a strategy behaves exactly like the same request
naming no strategy: the query still executes under the strategy that was
already active. -/
theorem unknown_strategy_error_state_unchanged
    (cfg : ProxyConfig) (st : ProxyState) (name : String)
    (hname : name ∉ STRATEGY_NAMES) :
    set_strategy cfg st name
      = (st, .badRequest ("Unknown strategy: " ++ name)) ∧
    (∀ (drv : DbDriver) (env : Env) (elapsedP : Int) (secret : String)
       (key : Option String) (q : Qc) (args : Option (List String))
       (elapsed : Int),
      gate_execute secret (proxySvc cfg drv env elapsedP) st
          ⟨q, args, some name⟩ key elapsed
        = gate_execute secret (proxySvc cfg drv env elapsedP) st
          ⟨q, args, none⟩ key elapsed) := by
  simp only [STRATEGY_NAMES, List.mem_cons, List.mem_singleton,
    List.not_mem_nil, or_false] at hname
  push_neg at hname
  obtain ⟨h1, h2, h3⟩ := hname
  have hset : set_strategy cfg st name
      = (st, .badRequest ("Unknown strategy: " ++ name)) := by
    simp [set_strategy, init_strategy, get_strategy, h1, h2, h3]
  refine ⟨hset, fun drv env elapsedP secret key q args elapsed => ?_⟩
  by_cases hv : verify_api_key secret key
  · by_cases hval : (validate_query q).1
    · by_cases hne : name = ""
      · subst hne
        simp [gate_execute, hv, hval, optStrTruthy]
      · simp [gate_execute, hv, hval, optStrTruthy, hne, proxySvc, hset]
    · simp [gate_execute, hv, hval]
  · simp [gate_execute, hv]

/-- Witness for C9 at the unknown name "fastest" over a one-replica
topology. -/
theorem unknown_strategy_error_state_unchanged_witness :
    set_strategy ⟨"P", ["R1"]⟩ initialProxyState "fastest"
      = (initialProxyState, .badRequest ("Unknown strategy: " ++ "fastest")) :=
  (unknown_strategy_error_state_unchanged ⟨"P", ["R1"]⟩ initialProxyState
    "fastest" (by decide)).1

/-- A query classified `"read"` necessarily starts (after strip/upper)
with `SELECT`. -/
lemma classify_read_startsWith (q : Qc)
    (h : classify_query q = "read") :
    startsWithL (pyUpper (pyStrip q)) (qchars "SELECT") = true := by
  cases hx : startsWithL (pyUpper (pyStrip q)) (qchars "SELECT") with
  | true => rfl
  | false =>
    dsimp only [classify_query] at h
    rw [hx] at h
    simp at h

/-- A driver answering every statement with one row and rowcount 1. -/
def okDriver : DbDriver := ⟨fun _ _ _ => .ok ([[("id", "1")]], 1)⟩

/-- C10 counterexample: the result shape is decided by the `SELECT`
prefix of the raw query, not by its classification, so the locking
SELECT `"SELECT * FROM t FOR UPDATE"` is classified WRITE yet its
successful execution carries data rows and no affected-row count -
contradicting "affected-row count when its classification is WRITE
... including locking SELECTs". -/
theorem locking_select_returns_rows :
    classify_query (qchars "SELECT * FROM t FOR UPDATE") = "write" ∧
    (execute_sql_query ⟨"P", ["R1", "R2"]⟩ okDriver initialProxyState
        (qchars "SELECT * FROM t FOR UPDATE") none
        ⟨0, fun _ => .fin 1, 0⟩ 4).1.data = some [[("id", "1")]] ∧
    (execute_sql_query ⟨"P", ["R1", "R2"]⟩ okDriver initialProxyState
        (qchars "SELECT * FROM t FOR UPDATE") none
        ⟨0, fun _ => .fin 1, 0⟩ 4).1.rows_affected = none := by
  decide

/-- C10 (amended): a successfully executed query's result carries data
rows exactly when the stripped uppercased query text starts with
`SELECT`, and an affected-row count exactly otherwise.  This coincides
with the classification for every query except locking SELECTs
(`SELECT ... FOR UPDATE` / `FOR SHARE`): a READ-classified query always
returns data rows, but a locking SELECT is classified WRITE and still
returns data rows, not an affected-row count. -/
theorem result_shape_follows_select_start (cfg : ProxyConfig)
    (drv : DbDriver) (st : ProxyState) (q : Qc)
    (args : Option (List String)) (env : Env) (elapsed : Int)
    (rows : List Row) (count : Int)
    (h : drv.run (get_target_host cfg st (classify_query q) env).1 q args
          = .ok (rows, count)) :
    (execute_sql_query cfg drv st q args env elapsed).1.success = true ∧
    (startsWithL (pyUpper (pyStrip q)) (qchars "SELECT") = true →
      (execute_sql_query cfg drv st q args env elapsed).1.data = some rows ∧
      (execute_sql_query cfg drv st q args env elapsed).1.rows_affected
        = none) ∧
    (startsWithL (pyUpper (pyStrip q)) (qchars "SELECT") = false →
      (execute_sql_query cfg drv st q args env elapsed).1.data = none ∧
      (execute_sql_query cfg drv st q args env elapsed).1.rows_affected
        = some count) ∧
    (classify_query q = "read" →
      (execute_sql_query cfg drv st q args env elapsed).1.data = some rows ∧
      (execute_sql_query cfg drv st q args env elapsed).1.rows_affected
        = none) := by
  have hsel : ∀ _hsw : startsWithL (pyUpper (pyStrip q))
      (qchars "SELECT") = true,
      (execute_sql_query cfg drv st q args env elapsed).1 =
        { success := true, data := some rows, rows_affected := none,
          target_host := (get_target_host cfg st (classify_query q) env).1,
          query_type := classify_query q,
          strategy := (get_target_host cfg st (classify_query q)
            env).2.current_strategy_name,
          latency_ms := elapsed, error := none } := by
    intro hsw
    unfold execute_sql_query execute_query
    dsimp only
    rw [h]
    dsimp only
    rw [if_pos hsw]
  refine ⟨?_, fun hsw => ?_, fun hsw => ?_, fun hr => ?_⟩
  · unfold execute_sql_query execute_query
    dsimp only
    rw [h]
    dsimp only
    cases hx : startsWithL (pyUpper (pyStrip q)) (qchars "SELECT") with
    | true => rfl
    | false => rfl
  · rw [hsel hsw]
    exact ⟨rfl, rfl⟩
  · unfold execute_sql_query execute_query
    dsimp only
    rw [h]
    dsimp only
    rw [if_neg (by simp [hsw])]
    exact ⟨rfl, rfl⟩
  · rw [hsel (classify_read_startsWith q hr)]
    exact ⟨rfl, rfl⟩

/-- Witness for C10's amended theorem: an INSERT (no SELECT prefix)
yields an affected-row count and no data rows. -/
theorem result_shape_follows_select_start_witness :
    (execute_sql_query ⟨"P", ["R1", "R2"]⟩ okDriver initialProxyState
        (qchars "INSERT INTO t VALUES (1)") none
        ⟨0, fun _ => .fin 1, 0⟩ 4).1.data = none ∧
    (execute_sql_query ⟨"P", ["R1", "R2"]⟩ okDriver initialProxyState
        (qchars "INSERT INTO t VALUES (1)") none
        ⟨0, fun _ => .fin 1, 0⟩ 4).1.rows_affected = some 1 :=
  (result_shape_follows_select_start ⟨"P", ["R1", "R2"]⟩ okDriver
    initialProxyState (qchars "INSERT INTO t VALUES (1)") none
    ⟨0, fun _ => .fin 1, 0⟩ 4 [[("id", "1")]] 1 rfl).2.2.1 (by decide)
